import Mathlib

/-!
Verification development for the http-bucket content-addressed storage engine.

The definitions below are a shallow embedding of the Python sources:
`src/assets/src/unpackage.py`  (SafeExtract, tar, zip),
`src/assets/src/bucket.py`     (_Store.get_route, File._store, Archive._store,
                                _Stage.process, Replicate, Upload),
`src/assets/src/calc.py`       (file_checksum, file_checksums_in_directory).

Filesystem paths are modelled as lists of segments from the root on a
symlink-free filesystem; machine-level details (inode numbers, permissions)
are abstracted away where the embedded code never consults them.
-/

namespace Bucket

/-! ## Path model (os.path semantics used by unpackage.py) -/

/-- An absolute canonical path: list of segments from the filesystem root. -/
abbrev AbsPath := List String

/-- Collapse `""`, `"."` and `".."` segments the way
`os.path.realpath(os.path.abspath p)` does on a symlink-free filesystem
(`".."` at the root stays at the root). -/
def canon (segs : List String) : AbsPath :=
  segs.foldl
    (fun acc s =>
      if s = "" ∨ s = "." then acc
      else if s = ".." then acc.dropLast
      else acc ++ [s]) []

/-- Join segments with `/` separators (the `"/".join` part of path printing). -/
def joinSegs : List String → String
  | [] => ""
  | [s] => s
  | s :: rest => s ++ "/" ++ joinSegs rest

/-- Render an absolute path the way Python prints it: `/a/b`; the root is `/`. -/
def pathStr (p : AbsPath) : String :=
  "/" ++ joinSegs p

/-- Python `str.startswith`: the second string is a prefix of the first. -/
def pyStartsWith (s pre : String) : Bool :=
  List.isPrefixOf pre.data s.data

/-- An archive member path as stored in a tar/zip header: possibly absolute,
with raw segments that may include `".."` or `"."`. -/
structure MemberPath where
  isAbs : Bool
  segs : List String
deriving DecidableEq, Repr

/-- `os.path.join base p`: an absolute `p` discards `base`. -/
def osJoin (base : AbsPath) (p : MemberPath) : List String :=
  if p.isAbs then p.segs else base ++ p.segs

/-- `os.path.dirname` on a member path: drop the final segment. -/
def memberDirname (p : MemberPath) : MemberPath :=
  ⟨p.isAbs, p.segs.dropLast⟩

/-! ## SafeExtract (unpackage.py lines 28-129) -/

/-- `SafeExtract.badpath(path, base)`:
`not resolved(os.path.join(base, path)).startswith(base)` where `base` is the
already-resolved base path rendered as a string. -/
def badpath (p : MemberPath) (base : AbsPath) : Bool :=
  !(pyStartsWith (pathStr (canon (osJoin base p))) (pathStr base))

/-- Link flavour of a tar member (`finfo.issym()` / `finfo.islnk()`). -/
inductive LinkKind
  | none
  | sym
  | hard
deriving DecidableEq, Repr

/-- A tar member: header name plus link information. -/
structure TarMember where
  name : MemberPath
  linkKind : LinkKind
  linkname : MemberPath
deriving DecidableEq, Repr

/-- `SafeExtract.badlink(info, base)`: resolve the directory containing the
link entry and apply `badpath` to the link target against that directory. -/
def badlink (info : TarMember) (base : AbsPath) : Bool :=
  let tip := canon (osJoin base (memberDirname info.name))
  badpath info.linkname tip

/-- Errors raised by extraction (`RuntimeError` in the source). -/
inductive ExtractErr
  | illegalPath (m : MemberPath)
  | illegalSym (m : MemberPath)
  | illegalHard (m : MemberPath)
deriving DecidableEq, Repr

/-- `SafeExtract.check_members_tar(archive)`.  The source computes
`base = cls.resolved(".")`, i.e. the canonicalized current working directory,
and validates every member against it. -/
def check_members_tar (cwd : AbsPath) (members : List TarMember) :
    Except ExtractErr Unit :=
  let base := canon cwd
  members.forM fun finfo =>
    if badpath finfo.name base then
      .error (.illegalPath finfo.name)
    else if finfo.linkKind = .sym && badlink finfo base then
      .error (.illegalSym finfo.name)
    else if finfo.linkKind = .hard && badlink finfo base then
      .error (.illegalHard finfo.name)
    else
      .ok ()

/-- `SafeExtract.check_members_zip(archive)`: path check only
(zip extraction does not preserve links). -/
def check_members_zip (cwd : AbsPath) (members : List MemberPath) :
    Except ExtractErr Unit :=
  let base := canon cwd
  members.forM fun finfo =>
    if badpath finfo base then
      .error (.illegalPath finfo)
    else
      .ok ()

/-- Where `tarfile.extractall(dst)` writes one member: `dst` joined with the
member name (leading slashes of absolute names are stripped by `tarfile`),
with `".."` segments honoured by the filesystem. -/
def extractTargetTar (dst : AbsPath) (m : TarMember) : AbsPath :=
  canon (dst ++ m.name.segs)

/-- `unpackage.tar(src, dst)`: validate all members, then extract every member.
The returned list is the set of filesystem paths written by `extractall`. -/
def tar (cwd : AbsPath) (members : List TarMember) (dst : AbsPath) :
    Except ExtractErr (List AbsPath) := do
  check_members_tar cwd members
  pure (members.map (extractTargetTar dst))

/-- Where `ZipFile.extractall(dst)` writes one member (zip names with `".."`
segments are sanitized by `zipfile` only for leading separators; the member
path is joined under `dst`). -/
def extractTargetZip (dst : AbsPath) (m : MemberPath) : AbsPath :=
  canon (dst ++ m.segs)

/-- `unpackage.zip(src, dst)`: validate all members, then extract. -/
def zipExtract (cwd : AbsPath) (members : List MemberPath) (dst : AbsPath) :
    Except ExtractErr (List AbsPath) := do
  check_members_zip cwd members
  pure (members.map (extractTargetZip dst))

/-- A tar member that climbs out of the destination with `".."` segments. -/
def evilMember : TarMember :=
  ⟨⟨false, ["..", "..", "etc", "evil"]⟩, .none, ⟨false, []⟩⟩

/-! ## _Store.get_route (bucket.py lines 53-90) -/

/-- One character of the class `[0-9a-f]` under `re.IGNORECASE`. -/
def hexChar (c : Char) : Bool :=
  (('0' ≤ c) && (c ≤ '9')) || (('a' ≤ c) && (c ≤ 'f')) || (('A' ≤ c) && (c ≤ 'F'))

/-- Truthiness of `re.search("^[0-9a-f]\x7b8,\x7d", s, re.IGNORECASE)`:
the pattern is anchored at the start only, so it matches precisely when the
first eight characters exist and are hexadecimal. -/
def checksumRegexSearch (s : String) : Bool :=
  8 ≤ s.length && (s.data.take 8).all hexChar

/-- Modelled from the spec: a valid fingerprint is a string of at least 8
hexadecimal characters (any case), hexadecimal throughout. -/
def isValidFingerprint (s : String) : Bool :=
  8 ≤ s.length && s.data.all hexChar

/-- Error raised by `get_route` (the source raises `TypeError`). -/
inductive RouteErr
  | typeError
deriving DecidableEq, Repr

/-- Python `str.lower` on the character data (ASCII case folding suffices for
the hexadecimal and route strings this code handles). -/
def pyLower (s : String) : String :=
  String.mk (s.data.map Char.toLower)

/-- `_Store.get_route(checksum)`: validate via the regex search, lower-case,
and decompose into `[first 2, next 2, full]`. -/
def get_route (checksum : String) : Except RouteErr (List String) :=
  if checksumRegexSearch checksum then
    let c := pyLower checksum
    .ok [String.mk (c.data.take 2), String.mk ((c.data.drop 2).take 2), c]
  else
    .error .typeError

/-! ## Association-list helpers (Python dict operations) -/

/-- First value bound to `k`, if any (`d.get(k)`). -/
def lookupA {α β : Type} [DecidableEq α] : List (α × β) → α → Option β
  | [], _ => none
  | (a, b) :: rest, k => if a = k then some b else lookupA rest k

/-- `d.get(k, dflt)`. -/
def lookupD {α β : Type} [DecidableEq α] (l : List (α × β)) (k : α) (dflt : β) : β :=
  (lookupA l k).getD dflt

/-- `d[k] = v`: replace the first binding of `k`, or append a new one. -/
def setA {α β : Type} [DecidableEq α] : List (α × β) → α → β → List (α × β)
  | [], k, v => [(k, v)]
  | (a, b) :: rest, k, v =>
      if a = k then (k, v) :: rest else (a, b) :: setA rest k v

/-! ## file_checksum (calc.py lines 26-115) -/

/-- The identity and stat data of one file at call time: `os.stat` gives the
identity key (`device:inode`, or the resolved path when unavailable) and the
modification time; `content` is what a full read of the file returns. -/
structure FileView where
  fileIdent : String
  mtime : Int
  content : List Nat
deriving DecidableEq, Repr

/-- `file_checksum_cache`: hashtype, then file identity, then mtime. -/
abbrev MtimeCache := List (Int × String)
abbrev IdentCache := List (String × MtimeCache)
abbrev ChecksumCache := List (String × IdentCache)

/-- Result of one `file_checksum` call: the digest, the updated module-level
cache, and whether `_file_checksum` ran (i.e. whether the file was read). -/
structure FCResult where
  value : String
  cache : ChecksumCache
  fileRead : Bool
deriving Repr

/-- `calc.file_checksum(path, hashtype, block_size)`.  The streaming digest
`_file_checksum` is abstracted as the function `hash` applied to the file's
byte content (block size does not affect the digest).  A cache hit on the
current mtime skips the read; a miss reads the file and stores the digest. -/
def file_checksum (hash : String → List Nat → String) (hashtype : String)
    (f : FileView) (cache : ChecksumCache) : FCResult :=
  let byIdent := lookupD cache hashtype []
  let byMtime := lookupD byIdent f.fileIdent []
  match lookupA byMtime f.mtime with
  | some v => ⟨v, cache, false⟩
  | none =>
      let v := hash hashtype f.content
      ⟨v, setA cache hashtype
            (setA byIdent f.fileIdent (setA byMtime f.mtime v)), true⟩

/-! ## file_checksums_in_directory (calc.py lines 118-162) -/

/-- What a directory entry that `os.walk` reports in `file_names` is:
`os.stat` (which follows symbolic links) classifies it. -/
inductive FileKind
  | regular
  | symlinkToRegular
  | symlinkBroken
  | socket
  | fifo
deriving DecidableEq, Repr

/-- One entry of a directory tree.  `dirLink` is a symbolic link to a
directory: `os.walk(followlinks=False)` lists it among directories but does
not descend into it.  For `symlinkToRegular` the stored content is the
content of the link's target. -/
inductive FsEntry
  | file (name : String) (kind : FileKind) (content : List Nat)
  | dir (name : String) (children : List FsEntry)
  | dirLink (name : String)
deriving Repr

/-- `OSError` raised while walking (`os.stat` on a dangling symlink). -/
inductive OSErr
  | statFailed
deriving DecidableEq, Repr

/-- `os.stat(path).st_mode` classification inside the collection loop:
regular files (directly, or through a followed symlink) are collected,
sockets and pipes are omitted with a warning, and a dangling symbolic link
makes `os.stat` raise. -/
def statCollect (kind : FileKind) (content : List Nat) :
    Except OSErr (Option (List Nat)) :=
  match kind with
  | .regular => .ok (some content)
  | .symlinkToRegular => .ok (some content)
  | .symlinkBroken => .error .statFailed
  | .socket => .ok none
  | .fifo => .ok none

mutual

/-- The `os.walk` collection loop: the current directory's non-directory
entries first (in listing order), then each subdirectory top-down; symbolic
links to directories are not followed. -/
def walkEntries (relDir : String) :
    List FsEntry → Except OSErr (List (String × List Nat))
  | [] => .ok []
  | e :: rest => do
      let here ← walkOne relDir e
      let more ← walkEntries relDir rest
      pure (here ++ more)

def walkOne (relDir : String) : FsEntry → Except OSErr (List (String × List Nat))
  | .file name kind content => do
      match ← statCollect kind content with
      | some c => pure [(relDir ++ name, c)]
      | none => pure []
  | .dirLink _ => pure []
  | .dir name children => walkEntries (relDir ++ name ++ "/") children

end

/-- `calc.file_checksums_in_directory(path, ...)`: collect the regular files
(as classified by `os.stat`) with paths relative to the root, then map each to
its digest via `file_checksum`.  The digest computation is abstracted as
`hash` of the content, as in `file_checksum`. -/
def file_checksums_in_directory (hash : List Nat → String)
    (tree : List FsEntry) : Except OSErr (List (String × String)) := do
  -- files collected first (walk loop), checksums computed second
  -- (ordering of os.walk file_names is the listing order of `tree`)
  let files ← walkEntries "" tree
  pure (files.map (fun fc => (fc.1, hash fc.2)))

/-! ## Blob retention (bucket.py File._store 393-415, Archive._store 609-637) -/

/-- The set of paths that currently exist in the permanent stores. -/
abbrev BlobFS := List String

/-- `Blobstore.check_exists(checksum)` at a given destination path. -/
def check_exists (fs : BlobFS) (dst : String) : Bool :=
  fs.contains dst

/-- `FileExistsError` raised by `os.link` when the destination exists. -/
inductive LinkErr
  | fileExists
deriving DecidableEq, Repr

/-- `os.link(src, dst)`: fails when `dst` already exists, else creates it. -/
def os_link (fs : BlobFS) (dst : String) : Except LinkErr BlobFS :=
  if fs.contains dst then .error .fileExists else .ok (dst :: fs)

/-- The retention pattern shared by `File._store` and the per-file loop of
`Archive._store`: consult `check_exists`; when absent, `ensure_writeable`
then `os.link` — with no retry and no second existence check.  The two
filesystem snapshots expose the interleaving point of concurrent uploads:
`fsCheck` is the store when `check_exists` runs, `fsLink` (a superset) is the
store when `os.link` runs. -/
def blob_retain (fsCheck fsLink : BlobFS) (dst : String) : Except LinkErr BlobFS :=
  if check_exists fsCheck dst then
    .ok fsLink
  else
    os_link fsLink dst

/-- `File._store` for a staged file whose blob destination is `bpath`. -/
def file_store (fsCheck fsLink : BlobFS) (bpath : String) : Except LinkErr BlobFS :=
  blob_retain fsCheck fsLink bpath

/-- One iteration of the `Archive._store` file loop: retain the blob, then
hardlink the blob into the mirrored dirstore tree at `apath`. -/
def archive_store_item (fsCheck fsLink : BlobFS) (bpath apath : String) :
    Except LinkErr BlobFS := do
  let fs ← blob_retain fsCheck fsLink bpath
  os_link fs apath

/-! ## _Stage.process (bucket.py lines 267-341) -/

/-- The Python exception types raised inside the stage bodies (all are
subclasses of `Exception`, which the stage boundary catches). -/
inductive Exc
  | osError (msg : String)
  | typeError (msg : String)
  | valueError (msg : String)
  | runtimeError (msg : String)
  | environmentError (msg : String)
deriving DecidableEq, Repr

/-- `type(e).__name__`. -/
def excTypeName : Exc → String
  | .osError _ => "OSError"
  | .typeError _ => "TypeError"
  | .valueError _ => "ValueError"
  | .runtimeError _ => "RuntimeError"
  | .environmentError _ => "OSError"

/-- `str(e)`. -/
def excMsg : Exc → String
  | .osError m => m
  | .typeError m => m
  | .valueError m => m
  | .runtimeError m => m
  | .environmentError m => m

/-- The outcome of each phase body of one stage run, as determined by the
filesystem and the uploaded content.  Only `_cleanup` removes the staging
directory, and only when it completes. -/
structure StageEnv where
  setupR : Except Exc Unit
  unpackageR : Except Exc Unit
  inspectR : Except Exc Unit
  storeR : Except Exc Unit
  cleanupR : Except Exc Unit
deriving Repr

/-- `_Stage._sequence`: the five phases in order; the first exception aborts
the rest. -/
def sequenceRun (e : StageEnv) : Except Exc Unit := do
  e.setupR
  e.unpackageR
  e.inspectR
  e.storeR
  e.cleanupR

/-- The stage fields observable after `process()` returns: the returned
boolean, `self.error`, `self.exception`, and whether the staging directory is
still on disk. -/
structure StageResult where
  ok : Bool
  error : Option String
  exception : Option Exc
  stagingOnDisk : Bool
deriving DecidableEq, Repr

/-- The message assigned to `self.error` in the `except` clause. -/
def processMsg (clsName errType eMsg errorMsgCls spath : String) : String :=
  clsName ++ " processing failed.  " ++ errType ++ ": " ++ eMsg ++ ".  " ++
    errorMsgCls ++ ".  Staging directory retained: " ++ spath

/-- `_Stage.process()`: run the sequence; catch any exception at the stage
boundary, record message and exception, and return `False`; the staging
directory (created in `__init__`, hence initially on disk) is removed only by
a completed `_cleanup`. -/
def process (clsName errorMsgCls spath : String) (e : StageEnv) : StageResult :=
  match sequenceRun e with
  | .ok _ => ⟨true, none, none, false⟩
  | .error ex =>
      ⟨false,
       some (processMsg clsName (excTypeName ex) (excMsg ex) errorMsgCls spath),
       some ex, true⟩

/-! ## Upload.process guard (bucket.py lines 918-934) -/

/-- Whether the first four phases complete: `File._store` assigns
`self.archive_path` at its very end, so `file_obj.archive_path` is set
exactly when setup, unpackage, inspect and store all completed. -/
def storePhasesOk (e : StageEnv) : Bool :=
  match (do e.setupR; e.unpackageR; e.inspectR; e.storeR : Except Exc Unit) with
  | .ok _ => true
  | .error _ => false

/-- The boolean a stage's `process()` returns for this run. -/
def fileProcessOk (e : StageEnv) : Bool :=
  match sequenceRun e with
  | .ok _ => true
  | .error _ => false

/-- Outcome of one `Upload.process()` call: the guard's already-processed
`RuntimeError`, the `RuntimeError("Log has already been closed")` that
`LogStream.__getattr__` raises when `self.log.info` is reached after the
first run closed the stream, or an actual run of the file stage. -/
inductive UploadOutcome
  | alreadyProcessed
  | logClosedError
  | ran (fileStageResult : Bool)
deriving DecidableEq, Repr

/-- The state of an `Upload` object that `process()` consults:
`file_obj.archive_path`, and whether the Upload's `LogStream` has been
closed (a fresh object has an open stream; every completed `process()` call
ends with `self.log.close()`). -/
structure UploadState where
  archivePath : Option String
  logClosed : Bool
deriving DecidableEq, Repr

/-- `Upload.process()`: the guard raises the already-processed `RuntimeError`
when `file_obj.archive_path` is set — before touching the log; otherwise the
first statement is `self.log.info(...)`, which on a closed `LogStream` raises
`RuntimeError("Log has already been closed")` before any stage re-runs;
otherwise the run proceeds — the file stage executes (stage exceptions are
caught inside the stage), `archive_path` is set to the blob destination
exactly when the store phase completed (even if cleanup later failed), and
`self.log.close()` at the end closes the stream.  Returns the outcome and
the Upload state after the call. -/
def upload_process (st : UploadState) (e : StageEnv) (bpath : String) :
    UploadOutcome × UploadState :=
  if st.archivePath.isSome then
    (.alreadyProcessed, st)
  else if st.logClosed then
    (.logClosedError, st)
  else
    (.ran (fileProcessOk e),
     ⟨if storePhasesOk e then some bpath else none, true⟩)

/-- A run whose inspect phase raises (for example, the staged file was never
written, so `os.stat` fails); every other phase would have succeeded. -/
def inspectFailEnv : StageEnv :=
  ⟨.ok (), .ok (), .error (.osError "No such file or directory"), .ok (), .ok ()⟩

/-! ## Replicate (bucket.py lines 650-887, config.py ReplicatePath) -/

/-- One item of an administrator-configured replica-path template: a literal
(alphanumeric) directory segment, or a header placeholder whose name config
parsing stored uppercased. -/
inductive TemplateItem
  | dirSeg (s : String)
  | headerVar (name : String)
deriving DecidableEq, Repr

/-- Client request headers; `Replicate.__init__` uppercases the keys. -/
abbrev Headers := List (String × String)

/-- `self.request_headers.get(header, "")`. -/
def header_value (hs : Headers) (name : String) : String :=
  lookupD hs name ""

/-- Accumulator of the item loop in `Replicate._inspect` over one template:
`replica_path` and the flag recording that some placeholder resolved. -/
structure InspectAcc where
  path : List (Option String)
  matched : Bool
deriving DecidableEq, Repr

/-- One iteration of the item loop: directory literals pass through; a
placeholder becomes the secure-filename-sanitized client value, or `None`
when the client supplied no non-empty value.  `secure` is
`util.secure_filename` (string sanitization, abstracted as a function). -/
def inspect_item (secure : String → String) (hs : Headers)
    (acc : InspectAcc) : TemplateItem → InspectAcc
  | .dirSeg s => ⟨acc.path ++ [some s], acc.matched⟩
  | .headerVar name =>
      let clientValue := header_value hs name
      if clientValue = "" then ⟨acc.path ++ [none], acc.matched⟩
      else ⟨acc.path ++ [some (secure clientValue)], true⟩

/-- The item loop over one template, starting from the empty path. -/
def inspect_template (secure : String → String) (hs : Headers)
    (tpl : List TemplateItem) : InspectAcc :=
  tpl.foldl (inspect_item secure hs) ⟨[], false⟩

/-- End of the template loop body: the path joins `replica_matches` iff some
placeholder resolved and none failed (the partially matched case is logged
and skipped; a template with no resolved placeholder is skipped silently). -/
def template_match (secure : String → String) (hs : Headers)
    (tpl : List TemplateItem) : Option (List String) :=
  let acc := inspect_template secure hs tpl
  if acc.path.contains none && acc.matched then none
  else if acc.matched then some (acc.path.map (fun o => o.getD ""))
  else none

/-- `Replicate._inspect`: the `replica_matches` list over the configured
templates, in configuration order. -/
def replicate_inspect (secure : String → String) (hs : Headers)
    (cfg : List (List TemplateItem)) : List (List String) :=
  cfg.filterMap (template_match secure hs)

/-- Contents of one replica destination directory: regular-file entries
(hardlinked replica slots) and symbolic links, `name ↦ target`, the target a
name interpreted in the same directory. -/
structure RepDir where
  files : List String
  links : List (String × String)
deriving DecidableEq, Repr

/-- A directory entry of any kind occupies this name (`os.link` and
`os.symlink` raise `FileExistsError` on any existing entry, dangling
symbolic links included). -/
def nameOccupied (d : RepDir) (n : String) : Bool :=
  d.files.contains n || (lookupA d.links n).isSome

/-- Follow symbolic links with bounded fuel; exhausted fuel models `ELOOP`,
for which `os.path.exists` is also `False`. -/
def resolveExists (d : RepDir) : Nat → String → Bool
  | 0, _ => false
  | fuel + 1, n =>
      d.files.contains n ||
        (match lookupA d.links n with
         | some t => resolveExists d fuel t
         | none => false)

/-- `os.path.exists`: follows symbolic links, so a dangling link reports
`False`. -/
def os_path_exists (d : RepDir) (n : String) : Bool :=
  resolveExists d (d.links.length + 1) n

/-- Errors raised inside `Replicate._store`. -/
inductive RepErr
  | fileExists
  | replicaLimit
deriving DecidableEq, Repr

/-- `os.link(src, dst_dir/n)` viewed from the destination directory. -/
def os_link_entry (d : RepDir) (n : String) : Except RepErr RepDir :=
  if nameOccupied d n then .error .fileExists
  else .ok { d with files := n :: d.files }

/-- `os.symlink(target, dst_dir/n)` viewed from the destination directory. -/
def os_symlink_entry (d : RepDir) (target n : String) : Except RepErr RepDir :=
  if nameOccupied d n then .error .fileExists
  else .ok { d with links := (n, target) :: d.links }

/-- `os.unlink(dst_dir/n)`. -/
def os_unlink_entry (d : RepDir) (n : String) : RepDir :=
  ⟨d.files.erase n, d.links.filter (fun p => p.1 != n)⟩

/-- Inputs of one replica creation that the destination directory does not
determine: `os.path.splitext(self.name)` as `base`/`ext`, the timestamp
string of `_determine_replica_name`, whether the local source is a single
file (`os.path.isfile`), and `os.path.relpath(local_source, dst_dir)` used
as the symbolic-link target for directory replicas. -/
structure ReplicaParams where
  base : String
  ext : String
  ts : String
  sourceIsFile : Bool
  srcRel : String
deriving DecidableEq, Repr

/-- `"%s.%s.%s%s" % (name, timestamp, i, extension)`; directory sources drop
the extension. -/
def replica_slot_name (p : ReplicaParams) (i : Nat) : String :=
  let ext := if p.sourceIsFile then p.ext else ""
  p.base ++ "." ++ p.ts ++ "." ++ toString i ++ ext

/-- `Replicate._determine_replica_name`: probe indices 0..99 with
`os.path.exists` for the first unused slot; all taken raises
`EnvironmentError` (replica limit). -/
def determine_replica_name (p : ReplicaParams) (d : RepDir) :
    Except RepErr String :=
  match (List.range 100).find?
      (fun i => !(os_path_exists d (replica_slot_name p i))) with
  | some i => .ok (replica_slot_name p i)
  | none => .error .replicaLimit

/-- `Replicate._determine_latest_link_name`: a file source splits off its
extension; a directory source keeps the full name. -/
def latest_link_name (p : ReplicaParams) : String :=
  if p.sourceIsFile then p.base ++ ".latest" ++ p.ext
  else (p.base ++ p.ext) ++ ".latest"

/-- The `_store` loop body for one matched replica path, on the destination
directory `ensure_writeable` just created or found: determine the slot, link
the source into it (hardlink for files, symbolic link for directories), then
(re)point the latest link — removing the prior one only when
`os.path.exists` reports it. -/
def store_single (p : ReplicaParams) (d : RepDir) :
    Except RepErr (RepDir × String) :=
  match determine_replica_name p d with
  | .error e => .error e
  | .ok rid =>
      match (if p.sourceIsFile then os_link_entry d rid
             else os_symlink_entry d p.srcRel rid) with
      | .error e => .error e
      | .ok d1 =>
          let ln := latest_link_name p
          let d2 := if os_path_exists d1 ln then os_unlink_entry d1 ln else d1
          match os_symlink_entry d2 rid ln with
          | .error e => .error e
          | .ok d3 => .ok (d3, rid)

/-- The replica store world: contents of each destination directory, keyed by
resolved replica path; `ensure_writeable` creates missing directories
empty. -/
abbrev RepWorld := List (List String × RepDir)

/-- The `_store` loop over all matches, collecting the replicas created. -/
def replicate_store_go (p : ReplicaParams) :
    RepWorld → List (List String × String) → List (List String) →
      Except RepErr (RepWorld × List (List String × String))
  | w, acc, [] => .ok (w, acc)
  | w, acc, m :: rest =>
      match store_single p (lookupD w m ⟨[], []⟩) with
      | .error e => .error e
      | .ok (d2, rid) =>
          replicate_store_go p (setA w m d2) (acc ++ [(m, rid)]) rest

/-- `Replicate._store`: nothing to do when no template matched. -/
def replicate_store (p : ReplicaParams) (w : RepWorld)
    (ms : List (List String)) :
    Except RepErr (RepWorld × List (List String × String)) :=
  if ms.length = 0 then .ok (w, [])
  else replicate_store_go p w [] ms

/-- The Replicate stage end to end: `_inspect` computes the matches, `_store`
creates the replicas, `_cleanup` removes the (always empty) staging
directory and cannot fail; `process()` returns the boolean and the replicas
created. -/
def replicate_process (secure : String → String) (hs : Headers)
    (cfg : List (List TemplateItem)) (p : ReplicaParams) (w : RepWorld) :
    Bool × List (List String × String) :=
  match replicate_store p w (replicate_inspect secure hs cfg) with
  | .ok (_, reps) => (true, reps)
  | .error _ => (false, [])

/-- A destination directory whose only entry is a dangling latest link. -/
def danglingLatestDir : RepDir :=
  ⟨[], [("f.latest.txt", "ghost")]⟩

/-- Parameters of a single-file replica named `f.txt`. -/
def c9Params : ReplicaParams :=
  ⟨"f", ".txt", "20251012.0800", true, ""⟩

/-! ## Upload.get_api_response (bucket.py lines 967-1022) -/

/-- The per-stage data `get_api_response` reads: each of the four stage slots
is either `None` (stage never constructed) or an object carrying its
optional `error` string. -/
abbrev StageErrs := List (Option (Option String))

/-- One step of the `errors` accumulation: `errors += obj.error` extends the
list with the characters of the error string (Python `list += str` iterates
the string); falsy errors (`None` or the empty string) are skipped, as is a
stage object that was never constructed. -/
def collect_errors_step (acc : List Char) (o : Option (Option String)) :
    List Char :=
  match o with
  | none => acc
  | some none => acc
  | some (some e) => if e = "" then acc else acc ++ e.data

/-- The `errors` list after the loop over the four stage slots. -/
def collect_errors (objs : StageErrs) : List Char :=
  objs.foldl collect_errors_step []

/-- Modelled from the spec side for comparison: the same traversal collecting
whole error strings instead of characters. -/
def error_strings_step (acc : List String) (o : Option (Option String)) :
    List String :=
  match o with
  | none => acc
  | some none => acc
  | some (some e) => if e = "" then acc else acc ++ [e]

/-- The whole error strings the loop encounters, in order. -/
def error_strings (objs : StageErrs) : List String :=
  objs.foldl error_strings_step []

/-- The value of the `"status"` field. -/
inductive StatusField
  | errorChars (cs : List Char)
  | success
deriving DecidableEq, Repr

/-- `"status": errors if errors else "Success"`. -/
def api_status (objs : StageErrs) : StatusField :=
  let errors := collect_errors objs
  if errors.isEmpty then .success else .errorChars errors

/-- `code = 200 if self.result is True else 500`. -/
def api_code (result : Option Bool) : Nat :=
  if result = some true then 200 else 500

end Bucket

/-! ## Theorems -/

namespace Bucket

/-- C1: the source validates archive members against the canonicalized current
working directory (`SafeExtract.resolved(".")`), not against the destination
directory.  With the working directory at the filesystem root, the traversal
member `../../etc/evil` passes validation and `tar` extracts it to
`/etc/evil`, a path outside the destination `/data/stage`: no
`UnsafeArchiveMember`-style error is raised and a file outside the destination
is written. -/
theorem tar_member_check_uses_cwd_not_dst :
    tar [] [evilMember] ["data", "stage"] = .ok [["etc", "evil"]] ∧
    (["data", "stage"] : List String).isPrefixOf ["etc", "evil"] = false :=
  ⟨rfl, rfl⟩

/-- C4 counterexample: `"01234567!?"` is not a valid fingerprint (it contains
non-hexadecimal characters), yet `get_route` accepts it and returns a route
instead of raising, because the validation regex is anchored only at the
start of the string. -/
theorem get_route_accepts_invalid_fingerprint :
    isValidFingerprint "01234567!?" = false ∧
    get_route "01234567!?" = .ok ["01", "23", "01234567!?"] :=
  ⟨rfl, rfl⟩

/-- C4 (amended): every string whose characters are all hexadecimal with
length at least 8 is routed to `[key[0:2], key[2:4], key]` lower-cased; every
string whose first eight characters are not all hexadecimal raises the
invalid-argument error.  (Strings with a hexadecimal 8-character head but a
non-hexadecimal tail are also accepted, as the counterexample shows.) -/
theorem get_route_amended :
    (∀ s : String, isValidFingerprint s = true →
      get_route s = .ok
        [String.mk ((pyLower s).data.take 2),
         String.mk (((pyLower s).data.drop 2).take 2), pyLower s]) ∧
    (∀ s : String, checksumRegexSearch s = false →
      get_route s = .error .typeError) := by
  constructor
  · intro s hs
    have hvalid : checksumRegexSearch s = true := by
      simp only [isValidFingerprint, Bool.and_eq_true, decide_eq_true_eq] at hs
      simp only [checksumRegexSearch, Bool.and_eq_true, decide_eq_true_eq]
      refine ⟨hs.1, ?_⟩
      rw [List.all_eq_true]
      intro c hc
      exact (List.all_eq_true.mp hs.2) c (List.take_subset 8 s.data hc)
    simp [get_route, hvalid]
  · intro s hs
    simp [get_route, hs]

/-- Updating a binding makes it the one found by lookup. -/
theorem lookupA_setA_self {α β : Type} [DecidableEq α]
    (l : List (α × β)) (k : α) (v : β) : lookupA (setA l k v) k = some v := by
  induction l with
  | nil => simp [setA, lookupA]
  | cons p rest ih =>
      by_cases h : p.1 = k
      · simp [setA, h, lookupA]
      · simp [setA, h, lookupA, ih]

/-- C5: (a) fingerprinting an unmodified file twice (same identity key, same
mtime) through the threaded cache returns the identical digest and the second
call performs no file read; (b) whenever the file's current mtime is absent
from the cached mtimes for its identity key, the digest is recomputed by
reading the file, so it is the hash of the file's current content. -/
theorem file_checksum_cache_correct (hash : String → List Nat → String)
    (hashtype : String) (f : FileView) (cache : ChecksumCache) :
    ((file_checksum hash hashtype f
        (file_checksum hash hashtype f cache).cache).value =
      (file_checksum hash hashtype f cache).value ∧
     (file_checksum hash hashtype f
        (file_checksum hash hashtype f cache).cache).fileRead = false) ∧
    (lookupA (lookupD (lookupD cache hashtype []) f.fileIdent []) f.mtime = none →
      (file_checksum hash hashtype f cache).fileRead = true ∧
      (file_checksum hash hashtype f cache).value = hash hashtype f.content) := by
  constructor
  · cases h : lookupA (lookupD (lookupD cache hashtype []) f.fileIdent []) f.mtime with
    | some v =>
        constructor <;> simp [file_checksum, h]
    | none =>
        have h2 :
            lookupA
              (lookupD
                (lookupD
                  (setA cache hashtype
                    (setA (lookupD cache hashtype []) f.fileIdent
                      (setA (lookupD (lookupD cache hashtype []) f.fileIdent [])
                        f.mtime (hash hashtype f.content))))
                  hashtype [])
                f.fileIdent [])
              f.mtime = some (hash hashtype f.content) := by
          simp [lookupD, lookupA_setA_self]
        constructor <;> simp [file_checksum, h, h2]
  · intro h
    constructor <;> simp [file_checksum, h]

/-- C5 witness: a concrete file and the empty cache; the second call returns
the same digest without reading, and the first call (mtime not cached)
computed the hash of the content by reading the file. -/
theorem file_checksum_cache_correct_witness :
    ((file_checksum (fun _ c => joinSegs (c.map toString)) "md5"
        ⟨"8:42", 100, [7, 7]⟩
        (file_checksum (fun _ c => joinSegs (c.map toString)) "md5"
          ⟨"8:42", 100, [7, 7]⟩ []).cache).value =
      (file_checksum (fun _ c => joinSegs (c.map toString)) "md5"
        ⟨"8:42", 100, [7, 7]⟩ []).value ∧
     (file_checksum (fun _ c => joinSegs (c.map toString)) "md5"
        ⟨"8:42", 100, [7, 7]⟩
        (file_checksum (fun _ c => joinSegs (c.map toString)) "md5"
          ⟨"8:42", 100, [7, 7]⟩ []).cache).fileRead = false) ∧
    ((file_checksum (fun _ c => joinSegs (c.map toString)) "md5"
        ⟨"8:42", 100, [7, 7]⟩ []).fileRead = true ∧
     (file_checksum (fun _ c => joinSegs (c.map toString)) "md5"
        ⟨"8:42", 100, [7, 7]⟩ []).value =
       (fun (_ : String) (c : List Nat) => joinSegs (c.map toString)) "md5" [7, 7]) :=
  ⟨(file_checksum_cache_correct (fun _ c => joinSegs (c.map toString)) "md5"
      ⟨"8:42", 100, [7, 7]⟩ []).1,
   (file_checksum_cache_correct (fun _ c => joinSegs (c.map toString)) "md5"
      ⟨"8:42", 100, [7, 7]⟩ []).2 rfl⟩

/-- C6: the walk classifies entries with `os.stat`, which follows symbolic
links, so a symbolic link whose target is a regular file is recorded in the
result (here `ln.txt`, a link to `a.txt`), contradicting both the claim and
the module's own documentation ("Links ... not captured within data
structure"); it is not logged as an omission. -/
theorem dir_checksums_include_file_symlink :
    file_checksums_in_directory (fun _ => "h")
      [.file "a.txt" .regular [1], .file "ln.txt" .symlinkToRegular [1]] =
      .ok [("a.txt", "h"), ("ln.txt", "h")] ∧
    file_checksums_in_directory (fun _ => "h")
      [.dir "sub" [.file "b.txt" .regular [2]], .dirLink "loop",
       .file "s.sock" .socket []] =
      .ok [("sub/b.txt", "h")] :=
  ⟨rfl, rfl⟩

/-- C4 witness: the amended theorem applied at concrete inputs. -/
theorem get_route_amended_witness :
    get_route "AABBCCDD" =
      .ok [String.mk ((pyLower "AABBCCDD").data.take 2),
           String.mk (((pyLower "AABBCCDD").data.drop 2).take 2),
           pyLower "AABBCCDD"] ∧
    get_route "zz" = .error .typeError :=
  ⟨get_route_amended.1 "AABBCCDD" (by decide),
   get_route_amended.2 "zz" (by decide)⟩

/-- C2 counterexample: the blob destination is absent at the `check_exists`
snapshot but present when `os.link` runs (created by a concurrent upload);
both `File._store` and the `Archive._store` loop iteration raise
`FileExistsError` instead of treating "already exists" as success. -/
theorem store_race_not_treated_as_success :
    file_store [] ["/blob/ab/cd/abcd1234"] "/blob/ab/cd/abcd1234" =
      .error .fileExists ∧
    archive_store_item [] ["/blob/ab/cd/abcd1234"] "/blob/ab/cd/abcd1234"
      "/explode/ab/cd/full/a.txt" = .error .fileExists :=
  ⟨rfl, rfl⟩

/-- C2 (amended): in both `File._store` and `Archive._store`, when the blob
destination does not exist at the existence check but does exist at the
moment the hardlink is attempted, `os.link` raises `FileExistsError`; there
is no re-check of existence after the failed link attempt, so the exception
propagates out of the store step (and the stage's `process()` then reports
failure). -/
theorem store_race_raises (fsCheck fsLink : BlobFS) (bpath apath : String)
    (h1 : check_exists fsCheck bpath = false)
    (h2 : fsLink.contains bpath = true) :
    file_store fsCheck fsLink bpath = .error .fileExists ∧
    archive_store_item fsCheck fsLink bpath apath = .error .fileExists := by
  have h2m : bpath ∈ fsLink := by simpa using h2
  constructor
  · simp [file_store, blob_retain, os_link, h1, h2m]
  · simp [archive_store_item, blob_retain, os_link, h1, h2m, Bind.bind,
      Except.bind]

/-- C2 witness: the amended theorem at a concrete race. -/
theorem store_race_raises_witness :
    file_store [] ["/blob/ab/cd/abcd1234"] "/blob/ab/cd/abcd1234" =
      .error .fileExists ∧
    archive_store_item [] ["/blob/ab/cd/abcd1234"] "/blob/ab/cd/abcd1234"
      "/explode/ab/cd/full/b.txt" = .error .fileExists :=
  store_race_raises [] ["/blob/ab/cd/abcd1234"] "/blob/ab/cd/abcd1234"
    "/explode/ab/cd/full/b.txt" (by decide) (by decide)

/-- The stage failure message is never the empty string. -/
theorem processMsg_ne_empty (a b c d e : String) :
    processMsg a b c d e ≠ "" := by
  intro h
  have hlen := congrArg String.length h
  simp only [processMsg, String.length_append] at hlen
  have h1 : (" processing failed.  " : String).length = 21 := rfl
  have h2 : ("" : String).length = 0 := rfl
  omega

/-- C3: whenever any phase of the processing sequence raises an exception,
`process()` catches it at the stage boundary and returns `False`; the stage's
`error` field holds a non-empty message, its `exception` field holds the
triggering exception, and the staging directory is still on disk (the cleanup
removal did not complete on the failure path). -/
theorem stage_process_catches (clsName errorMsgCls spath : String)
    (e : StageEnv) (ex : Exc) (h : sequenceRun e = .error ex) :
    process clsName errorMsgCls spath e =
      ⟨false,
       some (processMsg clsName (excTypeName ex) (excMsg ex) errorMsgCls spath),
       some ex, true⟩ ∧
    processMsg clsName (excTypeName ex) (excMsg ex) errorMsgCls spath ≠ "" := by
  refine ⟨?_, processMsg_ne_empty _ _ _ _ _⟩
  simp [process, h]

/-- C3 witness: a store-phase I/O failure at concrete inputs. -/
theorem stage_process_catches_witness :
    process "File" "Failed to process blob" "/tmp/bucket/staging/ab12"
      ⟨.ok (), .ok (), .ok (), .error (.osError "read-only file system"), .ok ()⟩ =
      ⟨false,
       some (processMsg "File" "OSError" "read-only file system"
         "Failed to process blob" "/tmp/bucket/staging/ab12"),
       some (.osError "read-only file system"), true⟩ ∧
    processMsg "File" "OSError" "read-only file system"
      "Failed to process blob" "/tmp/bucket/staging/ab12" ≠ "" :=
  stage_process_catches "File" "Failed to process blob"
    "/tmp/bucket/staging/ab12"
    ⟨.ok (), .ok (), .ok (), .error (.osError "read-only file system"), .ok ()⟩
    (.osError "read-only file system") rfl

/-- C7 counterexample: a first `Upload.process()` run that fails during the
file stage's inspect phase leaves `file_obj.archive_path` unset but closes
the Upload's `LogStream`, so a second invocation fails with the closed-log
`RuntimeError` raised at `self.log.info` — a different error from the
already-processed one the claim requires.  (`_Stage.process` itself has no
re-invocation guard at all.) -/
theorem upload_reprocess_after_failure_not_guarded :
    (upload_process ⟨none, false⟩ inspectFailEnv "/blob/ab/cd/abcd1234").1 =
      .ran false ∧
    (upload_process
        (upload_process ⟨none, false⟩ inspectFailEnv "/blob/ab/cd/abcd1234").2
        inspectFailEnv "/blob/ab/cd/abcd1234").1 = .logClosedError ∧
    UploadOutcome.logClosedError ≠ UploadOutcome.alreadyProcessed :=
  ⟨rfl, rfl, by decide⟩

/-- A run whose five phases all completed also completed its first four. -/
theorem storePhasesOk_of_fileProcessOk (e : StageEnv)
    (h : fileProcessOk e = true) : storePhasesOk e = true := by
  rcases e with ⟨s, u, i, st, c⟩
  cases s <;> cases u <;> cases i <;> cases st <;>
    simp_all [fileProcessOk, storePhasesOk, sequenceRun, Bind.bind, Except.bind]

/-- C7 (amended): `_Stage.process` never raises the already-processed error;
only `Upload.process` guards re-invocation, testing `file_obj.archive_path`.
Starting from a fresh Upload, a second invocation raises the
already-processed `RuntimeError` exactly when the first run completed the
file stage's store phase — in particular after every fully successful first
run; when the first run failed before completing store, the second
invocation raises the closed-log `RuntimeError` at `self.log.info` instead,
and in no case does a second invocation re-execute the processing
sequence. -/
theorem upload_guard_amended (e1 e2 : StageEnv) (bpath : String) :
    ((upload_process (upload_process ⟨none, false⟩ e1 bpath).2 e2 bpath).1 =
        .alreadyProcessed ↔ storePhasesOk e1 = true) ∧
    (fileProcessOk e1 = true →
      (upload_process (upload_process ⟨none, false⟩ e1 bpath).2 e2 bpath).1 =
        .alreadyProcessed) ∧
    (storePhasesOk e1 = false →
      (upload_process (upload_process ⟨none, false⟩ e1 bpath).2 e2 bpath).1 =
        .logClosedError) ∧
    (∀ b : Bool,
      (upload_process (upload_process ⟨none, false⟩ e1 bpath).2 e2 bpath).1 ≠
        .ran b) := by
  cases hsp : storePhasesOk e1 with
  | true =>
      refine ⟨?_, fun _ => ?_, fun hcontra => ?_, fun b => ?_⟩
      · simp [upload_process, hsp]
      · simp [upload_process, hsp]
      · exact absurd hcontra (by decide)
      · simp [upload_process, hsp]
  | false =>
      refine ⟨?_, fun hp => ?_, fun _ => ?_, fun b => ?_⟩
      · simp [upload_process, hsp]
      · exact absurd ((storePhasesOk_of_fileProcessOk e1 hp).symm.trans hsp)
          (by decide)
      · simp [upload_process, hsp]
      · simp [upload_process, hsp]

/-- C7 witness: a fully successful first run makes the second call raise the
already-processed error; a first run failing at inspect makes the second
call raise the closed-log error. -/
theorem upload_guard_amended_witness :
    ((upload_process
        (upload_process ⟨none, false⟩
          ⟨.ok (), .ok (), .ok (), .ok (), .ok ()⟩ "/blob/x").2
        ⟨.ok (), .ok (), .ok (), .ok (), .ok ()⟩ "/blob/x").1 =
      .alreadyProcessed ↔
        storePhasesOk ⟨.ok (), .ok (), .ok (), .ok (), .ok ()⟩ = true) ∧
    (upload_process
        (upload_process ⟨none, false⟩
          ⟨.ok (), .ok (), .ok (), .ok (), .ok ()⟩ "/blob/x").2
        ⟨.ok (), .ok (), .ok (), .ok (), .ok ()⟩ "/blob/x").1 =
      .alreadyProcessed ∧
    (upload_process
        (upload_process ⟨none, false⟩ inspectFailEnv "/blob/x").2
        inspectFailEnv "/blob/x").1 = .logClosedError :=
  ⟨(upload_guard_amended ⟨.ok (), .ok (), .ok (), .ok (), .ok ()⟩
      ⟨.ok (), .ok (), .ok (), .ok (), .ok ()⟩ "/blob/x").1,
   (upload_guard_amended ⟨.ok (), .ok (), .ok (), .ok (), .ok ()⟩
      ⟨.ok (), .ok (), .ok (), .ok (), .ok ()⟩ "/blob/x").2.1 rfl,
   (upload_guard_amended inspectFailEnv inspectFailEnv "/blob/x").2.2.1 rfl⟩

/-- A `None` already in the accumulated path survives the rest of the item
loop (items only append to the path). -/
theorem inspect_keeps_none (secure : String → String) (hs : Headers)
    (l : List TemplateItem) (acc : InspectAcc) (h : none ∈ acc.path) :
    none ∈ (l.foldl (inspect_item secure hs) acc).path := by
  induction l generalizing acc with
  | nil => exact h
  | cons it rest ih =>
      apply ih
      cases it with
      | dirSeg s => simpa [inspect_item] using h
      | headerVar n =>
          by_cases hv : header_value hs n = ""
          · simp [inspect_item, hv]
          · simpa [inspect_item, hv] using h

/-- A placeholder whose header value is empty puts `None` into the path. -/
theorem inspect_unresolved_none (secure : String → String) (hs : Headers)
    (l : List TemplateItem) (acc : InspectAcc) (n : String)
    (hmem : TemplateItem.headerVar n ∈ l) (hv : header_value hs n = "") :
    none ∈ (l.foldl (inspect_item secure hs) acc).path := by
  induction l generalizing acc with
  | nil => cases hmem
  | cons it rest ih =>
      rcases List.mem_cons.mp hmem with heq | htail
      · have hstep : none ∈ (inspect_item secure hs acc it).path := by
          rw [← heq]
          simp [inspect_item, hv]
        exact inspect_keeps_none secure hs rest (inspect_item secure hs acc it)
          hstep
      · exact ih _ htail

/-- A template containing an unresolved placeholder contributes no match,
whatever the other items resolve to. -/
theorem template_match_none_of_unresolved (secure : String → String)
    (hs : Headers) (tpl : List TemplateItem)
    (h : ∃ n, TemplateItem.headerVar n ∈ tpl ∧ header_value hs n = "") :
    template_match secure hs tpl = none := by
  obtain ⟨n, hmem, hv⟩ := h
  have hnone : none ∈ (inspect_template secure hs tpl).path :=
    inspect_unresolved_none secure hs tpl ⟨[], false⟩ n hmem hv
  have hc : (inspect_template secure hs tpl).path.contains none = true := by
    simpa using hnone
  simp only [template_match]
  cases hm : (inspect_template secure hs tpl).matched <;> simp [hc, hm, hnone]

/-- C8: a template with at least one placeholder for which the client
supplied no non-empty header value produces no match, hence no replica for
that template; and when every configured template is in that situation, the
whole Replicate stage completes successfully with zero replicas created —
partial header coverage is skipped, not an error. -/
theorem replicate_unresolved_placeholder_skipped
    (secure : String → String) (hs : Headers) (cfg : List (List TemplateItem))
    (tpl : List TemplateItem) (p : ReplicaParams) (w : RepWorld)
    (hmiss : ∃ n, TemplateItem.headerVar n ∈ tpl ∧ header_value hs n = "") :
    template_match secure hs tpl = none ∧
    ((∀ t ∈ cfg, ∃ n, TemplateItem.headerVar n ∈ t ∧ header_value hs n = "") →
      replicate_process secure hs cfg p w = (true, [])) := by
  refine ⟨template_match_none_of_unresolved secure hs tpl hmiss, fun hall => ?_⟩
  have hm : replicate_inspect secure hs cfg = [] := by
    simp only [replicate_inspect]
    rw [List.filterMap_eq_nil_iff]
    intro t ht
    exact template_match_none_of_unresolved secure hs t (hall t ht)
  simp [replicate_process, replicate_store, hm]

/-- C8 witness: the spec's own example — template `projects/${Project}/builds`
with only header `X-Other` supplied. -/
theorem replicate_unresolved_placeholder_skipped_witness :
    template_match (fun s => s) [("X-OTHER", "value")]
      [.dirSeg "projects", .headerVar "PROJECT", .dirSeg "builds"] = none ∧
    replicate_process (fun s => s) [("X-OTHER", "value")]
      [[.dirSeg "projects", .headerVar "PROJECT", .dirSeg "builds"]]
      ⟨"f", ".txt", "20251012.0800", true, ""⟩ [] = (true, []) :=
  ⟨(replicate_unresolved_placeholder_skipped (fun s => s) [("X-OTHER", "value")]
      [[.dirSeg "projects", .headerVar "PROJECT", .dirSeg "builds"]]
      [.dirSeg "projects", .headerVar "PROJECT", .dirSeg "builds"]
      ⟨"f", ".txt", "20251012.0800", true, ""⟩ []
      ⟨"PROJECT", by decide⟩).1,
   (replicate_unresolved_placeholder_skipped (fun s => s) [("X-OTHER", "value")]
      [[.dirSeg "projects", .headerVar "PROJECT", .dirSeg "builds"]]
      [.dirSeg "projects", .headerVar "PROJECT", .dirSeg "builds"]
      ⟨"f", ".txt", "20251012.0800", true, ""⟩ []
      ⟨"PROJECT", by decide⟩).2
     (fun t ht => by
        obtain rfl := List.mem_singleton.mp ht
        exact ⟨"PROJECT", by decide⟩)⟩

/-- C9 counterexample: the destination directory holds a dangling
`f.latest.txt` symbolic link (its target `ghost` does not exist).  The prior
latest entry is present (`nameOccupied`), but `os.path.exists` follows the
link and reports `False`, so the store step skips the unlink and then
`os.symlink` raises `FileExistsError`: with a dangling prior latest link the
store step fails instead of repointing the link at the new slot. -/
theorem latest_link_dangling_store_fails :
    nameOccupied danglingLatestDir (latest_link_name c9Params) = true ∧
    os_path_exists danglingLatestDir (latest_link_name c9Params) = false ∧
    store_single c9Params danglingLatestDir = .error .fileExists :=
  ⟨rfl, rfl, rfl⟩

/-- A completed `os.symlink` leaves the link in place, pointing at its
target. -/
theorem lookupA_os_symlink (d : RepDir) (t n : String) (d2 : RepDir)
    (h : os_symlink_entry d t n = .ok d2) : lookupA d2.links n = some t := by
  simp only [os_symlink_entry] at h
  cases hocc : nameOccupied d n with
  | true => rw [hocc] at h; simp at h
  | false =>
      rw [hocc] at h
      simp only [Bool.false_eq_true, if_false, Except.ok.injEq] at h
      rw [← h]
      simp [lookupA]

/-- C9 (amended): whenever the store step for one replica completes — which
it does when the prior latest link is absent or resolves to an existing
target, but not when it dangles — the latest link exists in the resulting
directory and points at the newly created replica slot, any prior latest
link having been removed first. -/
theorem store_single_latest_points_to_new_slot (p : ReplicaParams)
    (d d3 : RepDir) (rid : String)
    (h : store_single p d = .ok (d3, rid)) :
    lookupA d3.links (latest_link_name p) = some rid := by
  simp only [store_single] at h
  split at h
  · exact absurd h (by simp)
  · split at h
    · exact absurd h (by simp)
    · split at h
      · exact absurd h (by simp)
      · rename_i d4 hsym
        simp only [Except.ok.injEq, Prod.mk.injEq] at h
        obtain ⟨h3, h4⟩ := h
        subst h3
        subst h4
        exact lookupA_os_symlink _ _ _ _ hsym

/-- C9 witness: storing into a directory with no prior latest link succeeds
and the latest link points at the new slot. -/
theorem store_single_latest_witness :
    store_single c9Params ⟨[], []⟩ =
      .ok (⟨["f.20251012.0800.0.txt"],
            [("f.latest.txt", "f.20251012.0800.0.txt")]⟩,
           "f.20251012.0800.0.txt") ∧
    lookupA [("f.latest.txt", "f.20251012.0800.0.txt")]
      (latest_link_name c9Params) = some "f.20251012.0800.0.txt" :=
  ⟨rfl,
   store_single_latest_points_to_new_slot c9Params ⟨[], []⟩
     ⟨["f.20251012.0800.0.txt"], [("f.latest.txt", "f.20251012.0800.0.txt")]⟩
     "f.20251012.0800.0.txt" rfl⟩

/-- The characters the error loop accumulates are the flattened character
data of the whole error strings the parallel traversal collects. -/
theorem collect_errors_eq_flatten (objs : StageErrs) :
    ∀ (accC : List Char) (accS : List String),
      accC = (accS.map String.data).flatten →
      objs.foldl collect_errors_step accC =
        ((objs.foldl error_strings_step accS).map String.data).flatten := by
  induction objs with
  | nil => intro accC accS h; simpa using h
  | cons o rest ih =>
      intro accC accS h
      match o with
      | none => exact ih accC accS h
      | some none => exact ih accC accS h
      | some (some e) =>
          by_cases he : e = ""
          · simp only [List.foldl_cons, collect_errors_step, error_strings_step,
              if_pos he]
            exact ih accC accS h
          · simp only [List.foldl_cons, collect_errors_step, error_strings_step,
              if_neg he]
            apply ih
            simp [h, List.map_append, List.flatten_append]

/-- Every string the error traversal collects is non-empty. -/
theorem error_strings_all_ne (objs : StageErrs) :
    ∀ (accS : List String), (∀ e ∈ accS, e ≠ "") →
      ∀ e ∈ objs.foldl error_strings_step accS, e ≠ "" := by
  induction objs with
  | nil => intro accS h; simpa using h
  | cons o rest ih =>
      intro accS h
      match o with
      | none => exact ih accS h
      | some none => exact ih accS h
      | some (some e) =>
          by_cases he : e = ""
          · simp only [List.foldl_cons, error_strings_step, if_pos he]
            exact ih accS h
          · simp only [List.foldl_cons, error_strings_step, if_neg he]
            apply ih
            intro x hx
            rcases List.mem_append.mp hx with hx1 | hx2
            · exact h x hx1
            · rwa [List.mem_singleton.mp hx2]

/-- Flattening the data of a non-empty list of non-empty strings gives a
non-empty character list. -/
theorem flatten_data_ne_nil (l : List String) (hne : l ≠ [])
    (hall : ∀ e ∈ l, e ≠ "") : (l.map String.data).flatten ≠ [] := by
  cases l with
  | nil => exact absurd rfl hne
  | cons s rest =>
      simp only [List.map_cons, List.flatten_cons]
      intro hcontra
      rcases List.append_eq_nil.mp hcontra with ⟨h1, _⟩
      exact hall s (List.mem_cons_self s rest) (String.ext h1)

/-- C10: when at least one invoked stage captured a non-empty error string,
the `"status"` field is the list of the individual characters of the
concatenated error strings (because `errors += obj.error` extends the list
element by element), not a list of whole messages; when no invoked stage
captured an error the field is the string `"Success"`; and the response code
is 200 exactly when the overall result is `True`. -/
theorem api_response_status (objs : StageErrs) (result : Option Bool) :
    (error_strings objs ≠ [] →
      api_status objs = .errorChars (String.join (error_strings objs)).data) ∧
    (error_strings objs = [] → api_status objs = .success) ∧
    (api_code result = 200 ↔ result = some true) := by
  have hrel : collect_errors objs =
      ((error_strings objs).map String.data).flatten := by
    rw [collect_errors, error_strings]
    exact collect_errors_eq_flatten objs [] [] rfl
  have hjoin : (String.join (error_strings objs)).data =
      ((error_strings objs).map String.data).flatten := by
    rw [String.join_eq]
  refine ⟨?_, ?_, ?_⟩
  · intro hne
    have hall : ∀ e ∈ error_strings objs, e ≠ "" := by
      rw [error_strings]
      exact error_strings_all_ne objs [] (by simp)
    have hcne : collect_errors objs ≠ [] := by
      rw [hrel]
      exact flatten_data_ne_nil (error_strings objs) hne hall
    cases hE : (collect_errors objs).isEmpty with
    | true => exact absurd (List.isEmpty_iff.mp hE) hcne
    | false =>
        simp only [api_status, hE, Bool.false_eq_true, if_false]
        rw [hrel, hjoin]
  · intro hnil
    have hcnil : collect_errors objs = [] := by
      rw [hrel, hnil]
      simp
    simp [api_status, hcnil]
  · cases result with
    | none => simp [api_code]
    | some b => cases b <;> simp [api_code]

/-- C10 witness: two failed stages with messages `"boom"` and `"bad"` yield
the character list of `"boombad"`; with no errors the status is `"Success"`;
an overall result of `False` yields code 500. -/
theorem api_response_status_witness :
    api_status [some (some "boom"), none, some none, some (some "bad")] =
      .errorChars
        (String.join
          (error_strings
            [some (some "boom"), none, some none, some (some "bad")])).data ∧
    api_status [some none, none] = .success ∧
    (api_code (some false) = 200 ↔ (some false : Option Bool) = some true) :=
  ⟨(api_response_status
      [some (some "boom"), none, some none, some (some "bad")]
      (some false)).1 (by decide),
   (api_response_status [some none, none] (some false)).2.1 (by decide),
   (api_response_status [some none, none] (some false)).2.2⟩

end Bucket
